import Mathlib

/-!
Shallow embedding of the record-extraction-and-persistence core of
`src/main.py`: the Convocatoria schema, `setup_database`, `save_to_database`,
and the per-URL driver loop of `main`.  Machine-level concerns (sqlite file
handles, the browser library) are modelled as explicit state passing; Python
exceptions are modelled with an error component.
-/

set_option autoImplicit false

namespace WebScraper

/-- JSON values, as produced by `json.loads` on the extraction payload.
Numbers are restricted to integers (no claim involves non-integral numbers). -/
inductive Json where
  | null
  | str (s : String)
  | num (n : Int)
  | bool (b : Bool)
  | arr (elems : List Json)
  | obj (fields : List (String × Json))

/-- The Python exceptions that the code under inspection can raise. -/
inductive PyError where
  | jsonDecodeError
  | typeError
  | attributeError
  | operationalError
  | interfaceError
deriving Repr, DecidableEq

/-- A value stored in one sqlite column of the `convocatorias` table. -/
inductive SQLVal where
  | null
  | text (s : String)
  | intv (n : Int)
deriving Repr, DecidableEq

/-- One row of the `convocatorias` table: the auto-increment identity plus
the nine schema fields, in the order declared by `setup_database`. -/
structure Row where
  id : Nat
  nombre_de_la_convocatoria : SQLVal
  fecha_de_apertura : SQLVal
  fecha_de_cierre : SQLVal
  idioma : SQLVal
  pais_que_convoca : SQLVal
  enlace_de_la_convocatoria : SQLVal
  tipo_de_proyecto_o_propuesta_que_se_puede_presentar : SQLVal
  quienes_pueden_participar : SQLVal
  beneficios : SQLVal
deriving Repr, DecidableEq

/-- The `convocatorias` table: its column names, the AUTOINCREMENT sequence
counter (largest identity ever assigned), and the committed rows. -/
structure Table where
  cols : List String
  seq : Nat
  rows : List Row
deriving Repr, DecidableEq

/-- The durable state of `data.db`: `none` when the `convocatorias` table has
not been created. -/
def DBState : Type := Option Table

instance : DecidableEq DBState := by
  unfold DBState
  infer_instance

/-- The nine columns named by the INSERT statement of `save_to_database`. -/
def insertCols : List String :=
  ["nombre_de_la_convocatoria", "fecha_de_apertura", "fecha_de_cierre",
   "idioma", "pais_que_convoca", "enlace_de_la_convocatoria",
   "tipo_de_proyecto_o_propuesta_que_se_puede_presentar",
   "quienes_pueden_participar", "beneficios"]

/-- The columns created by `setup_database`: the identity plus the nine. -/
def expectedCols : List String := "id" :: insertCols

/-- Translation of `setup_database` (src/main.py lines 35-53): CREATE TABLE
IF NOT EXISTS creates the table when absent and otherwise does nothing; the
call itself raises no exception.  The second component is the raised error,
always `none` here. -/
def setup_database (s : DBState) : DBState × Option PyError :=
  match s with
  | none => (some { cols := expectedCols, seq := 0, rows := [] }, none)
  | some t => (some t, none)

/-- Python `dict.get(key)` on the mapping parsed from JSON: the value of the
first binding of `key`, or `None` (here `Json.null`) when absent. -/
def dictGet : List (String × Json) → String → Json
  | [], _ => Json.null
  | (k, v) :: rest, key => if k = key then v else dictGet rest key

/-- How sqlite3 binds a Python value as a statement parameter: `None`,
strings, integers and booleans are supported; a list or dict raises
`InterfaceError` (unsupported type). -/
def bindValue : Json → Except PyError SQLVal
  | Json.null => .ok .null
  | Json.str s => .ok (.text s)
  | Json.num n => .ok (.intv n)
  | Json.bool b => .ok (.intv (if b then 1 else 0))
  | Json.arr _ => .error .interfaceError
  | Json.obj _ => .error .interfaceError

/-- One iteration of the loop body of `save_to_database`: `data.get(...)` on
the nine keys (an `AttributeError` when `data` is not a mapping), then the
INSERT (an `OperationalError` when a named column is missing; a fresh
identity `seq + 1` otherwise). -/
def insertOne (cols : List String) (seq : Nat) (data : Json) :
    Except PyError Row :=
  match data with
  | Json.obj kvs =>
      if insertCols.all (fun c => cols.contains c) then do
        let v1 ← bindValue (dictGet kvs "nombre_de_la_convocatoria")
        let v2 ← bindValue (dictGet kvs "fecha_de_apertura")
        let v3 ← bindValue (dictGet kvs "fecha_de_cierre")
        let v4 ← bindValue (dictGet kvs "idioma")
        let v5 ← bindValue (dictGet kvs "pais_que_convoca")
        let v6 ← bindValue (dictGet kvs "enlace_de_la_convocatoria")
        let v7 ← bindValue (dictGet kvs "tipo_de_proyecto_o_propuesta_que_se_puede_presentar")
        let v8 ← bindValue (dictGet kvs "quienes_pueden_participar")
        let v9 ← bindValue (dictGet kvs "beneficios")
        .ok { id := seq + 1,
              nombre_de_la_convocatoria := v1,
              fecha_de_apertura := v2,
              fecha_de_cierre := v3,
              idioma := v4,
              pais_que_convoca := v5,
              enlace_de_la_convocatoria := v6,
              tipo_de_proyecto_o_propuesta_que_se_puede_presentar := v7,
              quienes_pueden_participar := v8,
              beneficios := v9 }
      else .error .operationalError
  | _ => .error .attributeError

/-- The `for data in data_list` loop of `save_to_database`: rows accumulate
uncommitted; the first exception aborts the loop. Returns the final sequence
counter and the pending rows in insertion order. -/
def insertLoop (cols : List String) (seq : Nat) :
    List Json → Except PyError (Nat × List Row)
  | [] => .ok (seq, [])
  | d :: rest => do
      let r ← insertOne cols seq d
      let (seqEnd, rs) ← insertLoop cols (seq + 1) rest
      .ok (seqEnd, r :: rs)

/-- Translation of `save_to_database` (src/main.py lines 56-78): open the
connection, run the insert loop, then `conn.commit()`.  If the table is
absent the first INSERT raises `OperationalError` (an empty list executes no
INSERT and succeeds).  An exception propagates before `commit`, so the
pending rows are rolled back and the durable state is unchanged. -/
def save_to_database (data_list : List Json) (s : DBState) :
    DBState × Option PyError :=
  match s with
  | none =>
      match data_list with
      | [] => (none, none)
      | _ :: _ => (none, some .operationalError)
  | some t =>
      match insertLoop t.cols t.seq data_list with
      | .error e => (some t, some e)
      | .ok (seqEnd, newRows) =>
          (some { cols := t.cols, seq := seqEnd, rows := t.rows ++ newRows },
           none)

/-- Python iteration over the object returned by `json.loads`: a list yields
its elements, a dict yields its keys (strings), a string yields its
one-character substrings, and the remaining values raise `TypeError`. -/
def iterElems : Json → Except PyError (List Json)
  | Json.arr xs => .ok xs
  | Json.obj kvs => .ok (kvs.map (fun p => Json.str p.1))
  | Json.str s => .ok ((s.toList).map (fun c => Json.str (String.singleton c)))
  | _ => .error .typeError

/-- `save_to_database(extracted_data)` as called from `main`, where the
parsed payload need not be a list: `for data in data_list` iterates whatever
`json.loads` produced. -/
def save_payload (payload : Json) (s : DBState) : DBState × Option PyError :=
  match iterElems payload with
  | .error e => (s, some e)
  | .ok xs => save_to_database xs s

/-- The outcome of one `crawler.arun` call, as observed by `main`: on
success, the result of `json.loads(result.extracted_content)` (`none` when
the content is not well-formed JSON, so that `json.loads` raises); on
failure, the error message. -/
inductive Outcome where
  | success (payload : Option Json)
  | failure (error_message : String)

/-- One console status line or run-ending event of `main`. -/
inductive Report where
  | saved
  | extractionFailed (msg : String)
  | crashed (e : PyError)
deriving Repr, DecidableEq

/-- The per-URL loop of `main` (src/main.py lines 104-115): on failure print
the message and continue; on success parse and save.  No exception handler
surrounds the body, so a `json.loads` or `save_to_database` exception aborts
the remaining iterations (recorded as a final `crashed` report; uncommitted
rows are rolled back). -/
def crawlLoop (s : DBState) : List Outcome → DBState × List Report
  | [] => (s, [])
  | Outcome.failure msg :: rest =>
      let (sEnd, reports) := crawlLoop s rest
      (sEnd, Report.extractionFailed msg :: reports)
  | Outcome.success none :: _ => (s, [Report.crashed .jsonDecodeError])
  | Outcome.success (some payload) :: rest =>
      match save_payload payload s with
      | (sNext, none) =>
          let (sEnd, reports) := crawlLoop sNext rest
          (sEnd, Report.saved :: reports)
      | (_, some e) => (s, [Report.crashed e])

/-- The body of `main`: `setup_database()` followed by the per-URL loop over
the extraction outcomes for the configured website list. -/
def runMain (outcomes : List Outcome) (s : DBState) : DBState × List Report :=
  crawlLoop (setup_database s).1 outcomes

/-- The committed rows visible in a store state. -/
def rowsOf (s : DBState) : List Row :=
  match s with
  | none => []
  | some t => t.rows

/-- A JSON value that is a string or null, the value shape the spec promises
for every field of a schema-conformant payload mapping. -/
def isStrOrNull : Json → Bool
  | Json.null => true
  | Json.str _ => true
  | _ => false

/-- The spec-side normalization of one field: the value read from the
mapping if the key is present with a string value, null otherwise. -/
def lookupField (kvs : List (String × Json)) (k : String) : SQLVal :=
  match dictGet kvs k with
  | Json.str s => SQLVal.text s
  | _ => SQLVal.null

/-- The spec-side normalized record for one payload mapping: each of the
nine known fields read if present, else null; identity `seq + 1`. -/
def rowOfMapping (seq : Nat) (kvs : List (String × Json)) : Row :=
  { id := seq + 1,
    nombre_de_la_convocatoria := lookupField kvs "nombre_de_la_convocatoria",
    fecha_de_apertura := lookupField kvs "fecha_de_apertura",
    fecha_de_cierre := lookupField kvs "fecha_de_cierre",
    idioma := lookupField kvs "idioma",
    pais_que_convoca := lookupField kvs "pais_que_convoca",
    enlace_de_la_convocatoria := lookupField kvs "enlace_de_la_convocatoria",
    tipo_de_proyecto_o_propuesta_que_se_puede_presentar :=
      lookupField kvs "tipo_de_proyecto_o_propuesta_que_se_puede_presentar",
    quienes_pueden_participar := lookupField kvs "quienes_pueden_participar",
    beneficios := lookupField kvs "beneficios" }

/-- The spec-side rows produced for a batch of payload mappings: one
normalized record per mapping, in input order, with consecutive fresh
identities starting at `seq + 1`. -/
def specRows (seq : Nat) : List (List (String × Json)) → List Row
  | [] => []
  | kvs :: rest => rowOfMapping seq kvs :: specRows (seq + 1) rest

/-- Whether a string is an ISO 8601 calendar date in the shape YYYY-MM-DD
(four digits, dash, two digits, dash, two digits). -/
def isISODate (s : String) : Bool :=
  match s.toList with
  | [y1, y2, y3, y4, d1, m1, m2, d2, a1, a2] =>
      y1.isDigit && y2.isDigit && y3.isDigit && y4.isDigit &&
      d1 == '-' && m1.isDigit && m2.isDigit &&
      d2 == '-' && a1.isDigit && a2.isDigit
  | _ => false

/-- The table freshly created by `setup_database` on an empty store. -/
def freshTable : Table :=
  { cols := expectedCols, seq := 0, rows := [] }

/-- The §8 scenario payload for URL B: one record with a name and an open
date, all other fields absent. -/
def becaPayload : Json :=
  Json.arr [Json.obj [("nombre_de_la_convocatoria", Json.str "Beca X"),
                      ("fecha_de_apertura", Json.str "2025-05-01")]]

/-! Shared lemmas about the embedding. -/

/-- Binding a successful `Except` computation just applies the
continuation. -/
@[simp] theorem okBind {ε α β : Type} (a : α) (f : α → Except ε β) :
    ((Except.ok a : Except ε α) >>= f) = f a := rfl

/-- When every value of the mapping is a string or null, binding the value
fetched by `dict.get` succeeds and yields exactly the spec-side field. -/
theorem bindValue_dictGet (kvs : List (String × Json)) (k : String)
    (h : ∀ p ∈ kvs, isStrOrNull p.2 = true) :
    bindValue (dictGet kvs k) = .ok (lookupField kvs k) := by
  induction kvs with
  | nil => rfl
  | cons p rest ih =>
      obtain ⟨k1, v⟩ := p
      have hv : isStrOrNull v = true := h (k1, v) (List.mem_cons_self _ _)
      have hrest : ∀ q ∈ rest, isStrOrNull q.2 = true :=
        fun q hq => h q (List.mem_cons_of_mem _ hq)
      by_cases hk : k1 = k
      · subst hk
        cases v <;> simp [isStrOrNull] at hv <;>
          simp [dictGet, lookupField, bindValue]
      · simpa [dictGet, lookupField, hk] using ih hrest

/-- On a mapping whose values are all string-or-null, with the nine insert
columns present, the loop body succeeds and builds the normalized record. -/
theorem insertOne_obj (cols : List String) (seq : Nat)
    (kvs : List (String × Json))
    (hcols : insertCols.all (fun c => cols.contains c) = true)
    (h : ∀ p ∈ kvs, isStrOrNull p.2 = true) :
    insertOne cols seq (Json.obj kvs) = .ok (rowOfMapping seq kvs) := by
  have hb : ∀ k, bindValue (dictGet kvs k) = .ok (lookupField kvs k) :=
    fun k => bindValue_dictGet kvs k h
  have hcolsP : ∀ x ∈ insertCols, x ∈ cols := by simpa using hcols
  simp [insertOne, hb, rowOfMapping]
  exact hcolsP

/-- The insert loop of `save_to_database` on a batch of string-or-null
mappings: it raises nothing and produces the spec-side rows in order,
advancing the identity sequence by the batch length. -/
theorem insertLoop_map_obj (cols : List String)
    (kvss : List (List (String × Json)))
    (hcols : insertCols.all (fun c => cols.contains c) = true)
    (h : ∀ kvs ∈ kvss, ∀ p ∈ kvs, isStrOrNull p.2 = true) :
    ∀ seq : Nat, insertLoop cols seq (kvss.map Json.obj) =
      .ok (seq + kvss.length, specRows seq kvss) := by
  induction kvss with
  | nil => intro seq; simp [insertLoop, specRows]
  | cons kvs rest ih =>
      intro seq
      have h1 : ∀ p ∈ kvs, isStrOrNull p.2 = true :=
        h kvs (List.mem_cons_self _ _)
      have h2 : ∀ l ∈ rest, ∀ p ∈ l, isStrOrNull p.2 = true :=
        fun l hl => h l (List.mem_cons_of_mem _ hl)
      have harith : seq + 1 + rest.length = seq + (rest.length + 1) := by omega
      simp [insertLoop, insertOne_obj cols seq kvs hcols h1, ih h2, specRows,
        harith]

/-- Committing a batch of string-or-null mappings appends exactly the
spec-side rows after the prior rows, advances the sequence by the batch
length, and raises no error. -/
theorem save_obj_batch (t : Table) (kvss : List (List (String × Json)))
    (hcols : insertCols.all (fun c => t.cols.contains c) = true)
    (h : ∀ kvs ∈ kvss, ∀ p ∈ kvs, isStrOrNull p.2 = true) :
    save_to_database (kvss.map Json.obj) (some t) =
      (some { cols := t.cols, seq := t.seq + kvss.length,
              rows := t.rows ++ specRows t.seq kvss }, none) := by
  simp [save_to_database, insertLoop_map_obj t.cols kvss hcols h t.seq]

/-- Saving an empty batch is a no-op on any store state and raises nothing. -/
theorem save_nil (s : DBState) : save_to_database [] s = (s, none) := by
  cases s with
  | none => rfl
  | some t => simp [save_to_database, insertLoop]

/-- The spec-side batch has exactly one row per input mapping. -/
theorem specRows_length (kvss : List (List (String × Json))) :
    ∀ seq : Nat, (specRows seq kvss).length = kvss.length := by
  induction kvss with
  | nil => intro seq; rfl
  | cons kvs rest ih => intro seq; simp [specRows, ih]

/-- Every identity assigned in a spec-side batch is strictly larger than
the sequence value the batch started from. -/
theorem specRows_id_gt (kvss : List (List (String × Json))) :
    ∀ seq : Nat, ∀ r ∈ specRows seq kvss, seq < r.id := by
  induction kvss with
  | nil => intro seq r hr; simp [specRows] at hr
  | cons kvs rest ih =>
      intro seq r hr
      rcases (List.mem_cons).1 hr with h1 | h1
      · subst h1; simp [rowOfMapping]
      · exact Nat.lt_of_succ_lt (ih (seq + 1) r h1)

/-- A key outside the nine known field names does not influence the
normalized record: unknown keys are ignored. -/
theorem rowOfMapping_ignores_unknown (seq : Nat) (k : String) (v : Json)
    (kvs : List (String × Json)) (hk : ¬ k ∈ insertCols) :
    rowOfMapping seq ((k, v) :: kvs) = rowOfMapping seq kvs := by
  simp [insertCols] at hk
  obtain ⟨h1, h2, h3, h4, h5, h6, h7, h8, h9⟩ := hk
  simp [rowOfMapping, lookupField, dictGet, h1, h2, h3, h4, h5, h6, h7, h8, h9]

/-! Claim theorems.  Each theorem settles one claim of the specification
against the embedding above. -/

/-- C1: for every list of mappings whose values are strings or null,
`save_to_database` inserts exactly one record per list element, in input
order (the committed rows are the prior rows followed by the spec-side
normalized rows, one per mapping); each of the nine known fields is the
value read from the mapping when present and null otherwise (the definition
of `rowOfMapping`); unknown keys are ignored (prepending a key outside the
nine known names leaves the normalized record unchanged); and the operation
raises no error on missing or extra keys (error component `none`). -/
theorem normalizer_one_record_per_element
    (kvss : List (List (String × Json))) (t : Table)
    (hcols : insertCols.all (fun c => t.cols.contains c) = true)
    (h : ∀ kvs ∈ kvss, ∀ p ∈ kvs, isStrOrNull p.2 = true) :
    save_to_database (kvss.map Json.obj) (some t) =
      (some { cols := t.cols, seq := t.seq + kvss.length,
              rows := t.rows ++ specRows t.seq kvss }, none) ∧
    (specRows t.seq kvss).length = kvss.length ∧
    (∀ (seq : Nat) (k : String) (v : Json) (kvs : List (String × Json)),
       ¬ k ∈ insertCols →
       rowOfMapping seq ((k, v) :: kvs) = rowOfMapping seq kvs) :=
  ⟨save_obj_batch t kvss hcols h, specRows_length kvss t.seq,
   fun seq k v kvs hk => rowOfMapping_ignores_unknown seq k v kvs hk⟩

/-- Witness for C1 at a concrete batch: one mapping with a known key, a
missing date, and an unknown key inserts exactly one normalized row. -/
theorem normalizer_one_record_per_element_witness :
    save_to_database
        [Json.obj [("nombre_de_la_convocatoria", Json.str "Beca X"),
                   ("clave_desconocida", Json.str "dato extra")]]
        (some freshTable) =
      (some { cols := freshTable.cols, seq := freshTable.seq + 1,
              rows := freshTable.rows ++
                specRows freshTable.seq
                  [[("nombre_de_la_convocatoria", Json.str "Beca X"),
                    ("clave_desconocida", Json.str "dato extra")]] }, none) :=
  (normalizer_one_record_per_element
      [[("nombre_de_la_convocatoria", Json.str "Beca X"),
        ("clave_desconocida", Json.str "dato extra")]]
      freshTable (by decide) (by decide)).1

/-- Counterexample to C2: URL A returns success with content that is not
well-formed JSON, URL B returns success with the valid one-record payload.
The run ends at URL A with an uncaught JSONDecodeError: the only report is
the crash (no per-URL error line, nothing for URL B), and the store holds no
rows even though URL B carried a valid record — processing URL B alone
would have stored it.  So the run neither reports a distinguishable
per-URL error nor proceeds to the next URL. -/
theorem malformed_payload_crash_counterexample :
    runMain [Outcome.success none, Outcome.success (some becaPayload)] none =
      (some freshTable, [Report.crashed PyError.jsonDecodeError]) ∧
    rowsOf (runMain [Outcome.success none,
                     Outcome.success (some becaPayload)] none).1 = [] ∧
    rowsOf (runMain [Outcome.success (some becaPayload)] none).1 =
      [rowOfMapping 0 [("nombre_de_la_convocatoria", Json.str "Beca X"),
                       ("fecha_de_apertura", Json.str "2025-05-01")]] := by
  refine ⟨by decide, by decide, by decide⟩

/-- C2 amended: when a success payload is not well-formed JSON (`json.loads`
raises) or parses to a non-iterable value, the uncaught exception aborts
the whole run at that URL: no rows from that URL are committed (the store
state is unchanged), but no per-URL error line is produced and the
remaining URLs are never processed. -/
theorem malformed_payload_aborts_run (s : DBState) (rest : List Outcome)
    (n : Int) :
    crawlLoop s (Outcome.success none :: rest) =
      (s, [Report.crashed PyError.jsonDecodeError]) ∧
    crawlLoop s (Outcome.success (some (Json.num n)) :: rest) =
      (s, [Report.crashed PyError.typeError]) := by
  constructor
  · rfl
  · simp [crawlLoop, save_payload, iterElems]

/-- C3: `setup_database` is idempotent: on every store state, running it
twice leaves the same storage shape as running it once, the second call
raises no error, and when the table already exists with the expected
columns the call returns the state unchanged with no error. -/
theorem ensureSchema_idempotent (s : DBState) :
    (setup_database (setup_database s).1).1 = (setup_database s).1 ∧
    (setup_database (setup_database s).1).2 = none ∧
    (∀ t : Table, s = some t → t.cols = expectedCols →
       setup_database s = (s, none)) := by
  refine ⟨?_, ?_, ?_⟩ <;> cases s <;> simp [setup_database]

/-- Witness for C3: on the freshly created table the call is a no-op with
no error. -/
theorem ensureSchema_idempotent_witness :
    setup_database (some freshTable) = (some freshTable, none) :=
  (ensureSchema_idempotent (some freshTable)).2.2 freshTable rfl rfl

/-- C4: `save_to_database` of an empty batch is a no-op with no error on
every store state; and on a batch of mappings it appends exactly one row
per record after the existing rows, in input order, where every appended
row's identity is fresh (strictly larger than every prior row's identity,
given that prior identities do not exceed the sequence counter). -/
theorem insertBatch_appends_in_order
    (kvss : List (List (String × Json))) (t : Table)
    (hcols : insertCols.all (fun c => t.cols.contains c) = true)
    (h : ∀ kvs ∈ kvss, ∀ p ∈ kvs, isStrOrNull p.2 = true)
    (hids : ∀ r ∈ t.rows, r.id ≤ t.seq) :
    (∀ s : DBState, save_to_database [] s = (s, none)) ∧
    save_to_database (kvss.map Json.obj) (some t) =
      (some { cols := t.cols, seq := t.seq + kvss.length,
              rows := t.rows ++ specRows t.seq kvss }, none) ∧
    (specRows t.seq kvss).length = kvss.length ∧
    (∀ nr ∈ specRows t.seq kvss, ∀ r ∈ t.rows, r.id < nr.id) :=
  ⟨save_nil, save_obj_batch t kvss hcols h, specRows_length kvss t.seq,
   fun nr hnr r hr =>
     Nat.lt_of_le_of_lt (hids r hr) (specRows_id_gt kvss t.seq nr hnr)⟩

/-- Witness for C4 at the empty batch over the fresh table. -/
theorem insertBatch_appends_in_order_witness :
    save_to_database [] (some freshTable) = (some freshTable, none) :=
  (insertBatch_appends_in_order [] freshTable (by decide) (by decide)
      (by decide)).1 (some freshTable)

/-- C5: an extraction outcome tagged failure is skipped entirely: the loop
surfaces the error message as a report and continues on the same store
state with the remaining URLs; in particular a run whose outcomes are all
failures completes every iteration, reports every message, never writes to
the store, and never crashes. -/
theorem extraction_failure_skips_and_continues (msg : String)
    (rest : List Outcome) (s : DBState) (msgs : List String) :
    crawlLoop s (Outcome.failure msg :: rest) =
      ((crawlLoop s rest).1,
       Report.extractionFailed msg :: (crawlLoop s rest).2) ∧
    crawlLoop s (msgs.map Outcome.failure) =
      (s, msgs.map Report.extractionFailed) := by
  constructor
  · simp [crawlLoop]
  · induction msgs with
    | nil => rfl
    | cons m ms ih => simp [crawlLoop, ih]

/-- Counterexample to C6: a batch whose open-date value is the string
01/05/2025 is persisted as-is — the committed row's `fecha_de_apertura` is
present (non-null) yet not in ISO YYYY-MM-DD shape.  No date validation
exists anywhere between extraction payload and storage. -/
theorem dates_not_validated_counterexample :
    rowsOf (save_to_database
        [Json.obj [("fecha_de_apertura", Json.str "01/05/2025")]]
        (some freshTable)).1 =
      [rowOfMapping 0 [("fecha_de_apertura", Json.str "01/05/2025")]] ∧
    (rowOfMapping 0 [("fecha_de_apertura", Json.str "01/05/2025")]
      ).fecha_de_apertura = SQLVal.text "01/05/2025" ∧
    isISODate "01/05/2025" = false := by
  refine ⟨by decide, by decide, by decide⟩

/-- C6 amended: the date fields of a persisted record are stored verbatim,
with no format validation: whatever string the payload carries for
`fecha_de_apertura` or `fecha_de_cierre` is committed unchanged, so the
persisted dates are ISO YYYY-MM-DD exactly when the extracted values
already are. -/
theorem dates_stored_verbatim (t : Table) (kvs : List (String × Json))
    (v w : String)
    (hcols : insertCols.all (fun c => t.cols.contains c) = true)
    (h : ∀ p ∈ kvs, isStrOrNull p.2 = true)
    (hopen : dictGet kvs "fecha_de_apertura" = Json.str v)
    (hclose : dictGet kvs "fecha_de_cierre" = Json.str w) :
    save_to_database [Json.obj kvs] (some t) =
      (some { cols := t.cols, seq := t.seq + 1,
              rows := t.rows ++ [rowOfMapping t.seq kvs] }, none) ∧
    (rowOfMapping t.seq kvs).fecha_de_apertura = SQLVal.text v ∧
    (rowOfMapping t.seq kvs).fecha_de_cierre = SQLVal.text w := by
  have hall : ∀ l ∈ [kvs], ∀ p ∈ l, isStrOrNull p.2 = true := by
    intro l hl
    rw [List.mem_singleton] at hl
    subst hl
    exact h
  refine ⟨?_, ?_, ?_⟩
  · simpa [specRows] using save_obj_batch t [kvs] hcols hall
  · simp [rowOfMapping, lookupField, hopen]
  · simp [rowOfMapping, lookupField, hclose]

/-- Witness for C6 amended: a non-ISO open date is committed verbatim. -/
theorem dates_stored_verbatim_witness :
    (rowOfMapping 0 [("fecha_de_apertura", Json.str "1 de mayo de 2025"),
                     ("fecha_de_cierre", Json.str "2025-06-30")]
      ).fecha_de_apertura = SQLVal.text "1 de mayo de 2025" :=
  (dates_stored_verbatim freshTable
      [("fecha_de_apertura", Json.str "1 de mayo de 2025"),
       ("fecha_de_cierre", Json.str "2025-06-30")]
      "1 de mayo de 2025" "2025-06-30"
      (by decide) (by decide) rfl rfl).2.1

/-- C7: round-trip — inserting one record and reading the freshly appended
row back from storage yields exactly the input record's nine normalized
field values, with the identity column newly assigned to `seq + 1`. -/
theorem roundtrip_preserves_fields (t : Table) (kvs : List (String × Json))
    (hcols : insertCols.all (fun c => t.cols.contains c) = true)
    (h : ∀ p ∈ kvs, isStrOrNull p.2 = true) :
    (rowsOf (save_to_database [Json.obj kvs] (some t)).1).getLast? =
      some (rowOfMapping t.seq kvs) ∧
    (rowOfMapping t.seq kvs).id = t.seq + 1 ∧
    (rowOfMapping t.seq kvs).nombre_de_la_convocatoria =
      lookupField kvs "nombre_de_la_convocatoria" ∧
    (rowOfMapping t.seq kvs).fecha_de_apertura =
      lookupField kvs "fecha_de_apertura" ∧
    (rowOfMapping t.seq kvs).fecha_de_cierre =
      lookupField kvs "fecha_de_cierre" ∧
    (rowOfMapping t.seq kvs).idioma = lookupField kvs "idioma" ∧
    (rowOfMapping t.seq kvs).pais_que_convoca =
      lookupField kvs "pais_que_convoca" ∧
    (rowOfMapping t.seq kvs).enlace_de_la_convocatoria =
      lookupField kvs "enlace_de_la_convocatoria" ∧
    (rowOfMapping t.seq kvs).tipo_de_proyecto_o_propuesta_que_se_puede_presentar =
      lookupField kvs "tipo_de_proyecto_o_propuesta_que_se_puede_presentar" ∧
    (rowOfMapping t.seq kvs).quienes_pueden_participar =
      lookupField kvs "quienes_pueden_participar" ∧
    (rowOfMapping t.seq kvs).beneficios = lookupField kvs "beneficios" := by
  have hall : ∀ l ∈ [kvs], ∀ p ∈ l, isStrOrNull p.2 = true := by
    intro l hl
    rw [List.mem_singleton] at hl
    subst hl
    exact h
  have hsave : save_to_database [Json.obj kvs] (some t) =
      (some { cols := t.cols, seq := t.seq + 1,
              rows := t.rows ++ [rowOfMapping t.seq kvs] }, none) := by
    simpa [specRows] using save_obj_batch t [kvs] hcols hall
  refine ⟨?_, rfl, rfl, rfl, rfl, rfl, rfl, rfl, rfl, rfl, rfl⟩
  rw [hsave]
  simp [rowsOf]

/-- Witness for C7 at a concrete record with two populated fields. -/
theorem roundtrip_preserves_fields_witness :
    (rowsOf (save_to_database
        [Json.obj [("idioma", Json.str "es"),
                   ("beneficios", Json.str "beca completa")]]
        (some freshTable)).1).getLast? =
      some (rowOfMapping 0 [("idioma", Json.str "es"),
                            ("beneficios", Json.str "beca completa")]) :=
  (roundtrip_preserves_fields freshTable
      [("idioma", Json.str "es"), ("beneficios", Json.str "beca completa")]
      (by decide) (by decide)).1

/-- C8: the store is append-only — after `setup_database` and after any
call of `save_to_database` (successful or raising), the committed rows are
exactly the prior rows followed by some (possibly empty) list of new rows,
so every pre-existing row survives unchanged, at its position; neither
operation updates or deletes a row. -/
theorem store_append_only (s : DBState) (data_list : List Json) :
    (∃ new, rowsOf (setup_database s).1 = rowsOf s ++ new) ∧
    (∃ new, rowsOf (save_to_database data_list s).1 = rowsOf s ++ new) := by
  constructor
  · cases s with
    | none => exact ⟨[], rfl⟩
    | some t => exact ⟨[], (List.append_nil _).symm⟩
  · cases s with
    | none =>
        cases data_list with
        | nil => exact ⟨[], rfl⟩
        | cons d rest => exact ⟨[], rfl⟩
    | some t =>
        rcases hloop : insertLoop t.cols t.seq data_list with e1 | pair
        · exact ⟨[], by simp [save_to_database, hloop, rowsOf]⟩
        · exact ⟨pair.2, by simp [save_to_database, hloop, rowsOf]⟩

/-- C9: `save_to_database` commits only after the whole insertion loop, so
a call that raised (on any element of the batch) left the durable store
exactly as it was: no partial batch is ever committed. -/
theorem batch_not_committed_on_error (data_list : List Json) (s : DBState)
    (e : PyError) (h : (save_to_database data_list s).2 = some e) :
    (save_to_database data_list s).1 = s := by
  cases s with
  | none => cases data_list <;> rfl
  | some t =>
      unfold save_to_database
      unfold save_to_database at h
      rcases hloop : insertLoop t.cols t.seq data_list with e1 | pair
      · simp [hloop]
      · simp [hloop] at h

/-- Witness for C9: a batch whose second element is a bare number raises,
and the store (including the well-formed first element) is unchanged. -/
theorem batch_not_committed_on_error_witness :
    (save_to_database [Json.obj [("idioma", Json.str "es")], Json.num 7]
        (some freshTable)).1 = some freshTable :=
  batch_not_committed_on_error
    [Json.obj [("idioma", Json.str "es")], Json.num 7]
    (some freshTable) PyError.attributeError (by decide)

/-- C10: a list containing a non-mapping element makes `save_to_database`
raise (`data.get` is only defined for mappings): on a batch holding a bare
string after a well-formed mapping, the call reports an AttributeError and
commits nothing — the element is neither skipped nor nulled. -/
theorem non_mapping_element_raises :
    (save_to_database [Json.obj [("idioma", Json.str "es")],
                       Json.str "texto suelto"]
        (some freshTable)).2 = some PyError.attributeError ∧
    rowsOf (save_to_database [Json.obj [("idioma", Json.str "es")],
                              Json.str "texto suelto"]
        (some freshTable)).1 = [] := by
  refine ⟨by decide, by decide⟩

end WebScraper
